import Mathlib

/-!
A shallow embedding of `cdata` (src/cdata/core.py): a bridge between
ctypes Structure/Union binary layouts and dataclass value objects.

The embedding models:
* the field-type descriptors (`Ty`) that drive conversion: numeric simple
  types (c_uint32-style), `c_char * n` arrays, general fixed-length arrays,
  and nested Structure/Union classes (identified nominally, as ctypes does);
* runtime values (`Val`) as they appear on either side of the conversion:
  Python ints/bools/bytes/None/lists, dataclass instances, and live ctypes
  array/struct instances (with fields holding their as-read values);
* the decode engine `_ctypes2dataclass` (core.py lines 67-94) and the encode
  engine `_dataclass2ctypes` (lines 97-119), including the unconditional
  final default assignment of each loop body (lines 92 and 118) that follows
  the if/elif branch chain;
* ctypes field assignment (`setattrConv`) and array construction
  (`buildArr`), returning `Except PyErr _` for the TypeError / IndexError /
  ValueError cases ctypes raises;
* the memoized descriptor generators `_create_ctypes_class` /
  `_create_dataclass` (lines 29-64) with their `functools.cache` tables and
  the module-level `_STRUCTURE_DATACLASS_MAP`, as an explicit state machine;
* the facade methods `from_ctype`, `to_ctype` (lines 156-172) and
  `from_dict` (lines 174-177).
-/

namespace Cdata

/-- A ctypes field type, as stored in a `_fields_` entry.
`cnum` models a numeric simple type such as `c_uint32` (reads produce a
Python `int`, writes mask to 32 bits); `cchararr n` models `c_char * n`
(reads produce `bytes`); `carr t n` models a fixed-length array type `t * n`
for non-char `t`; `cstruct sname fs` models a `ctypes.Structure`/`Union`
class, identified by its class name as ctypes type checks are nominal. -/
inductive Ty where
  | cnum
  | cchararr (n : Nat)
  | carr (elem : Ty) (n : Nat)
  | cstruct (sname : String) (fields : List (String × Ty))

/-- A Python runtime value, covering both sides of the conversion.
`varr comp es` is a live ctypes array instance (`comp` records whether its
`_type_` is a Structure/Union subclass); `vstruct sname fs` is a live ctypes
Structure/Union instance whose fields hold their as-read values; `vdata cls
layout fs` is a dataclass instance of a class named `cls`, carrying the
`(name, ctype)` list its class would generate as `_fields_` together with
its instance attributes. -/
inductive Val where
  | vint (n : Int)
  | vbool (b : Bool)
  | vbytes (s : List Nat)
  | vnone
  | varr (comp : Bool) (elems : List Val)
  | vstruct (sname : String) (fields : List (String × Ty × Val))
  | vlist (elems : List Val)
  | vdata (cls : String) (layout : List (String × Ty)) (fields : List (String × Val))

/-- A decode/encode hook `(field_name, ctype, cvalue, dataclass_value) ->
Optional[Any]`; returning `vnone` models returning `None` (defer to the
default branches). -/
abbrev Hook := String → Ty → Val → Val → Val

/-- Python `value is None`. -/
def isNone : Val → Bool
  | .vnone => true
  | _ => false

/-- Python truthiness `bool(value)` for the values of the model: numbers by
zero test, bytes/lists/arrays by emptiness (ctypes arrays define `__len__`),
`None` falsy, Structure/Union and dataclass instances truthy. -/
def truthy : Val → Bool
  | .vint n => n != 0
  | .vbool b => b
  | .vbytes s => !s.isEmpty
  | .vnone => false
  | .varr _ es => !es.isEmpty
  | .vstruct _ _ => true
  | .vlist es => !es.isEmpty
  | .vdata _ _ _ => true

/-- `type(value) in [int, float, bool]` (core.py line 79); floats do not
occur in the model, so `vint`/`vbool` are the numeric/boolean cases. -/
def isNumBool : Val → Bool
  | .vint _ => true
  | .vbool _ => true
  | _ => false

/-- Association-list lookup, the model of dict / keyword access. -/
def alookup {κ β : Type} [DecidableEq κ] : List (κ × β) → κ → Option β
  | [], _ => none
  | (k, v) :: r, k2 => if k = k2 then some v else alookup r k2

/-- Python dict assignment `m[k] = v`: replace the entry in place, or
append a new one. -/
def updMap {κ β : Type} [DecidableEq κ] : List (κ × β) → κ → β → List (κ × β)
  | [], k, v => [(k, v)]
  | (k1, v1) :: r, k, v => if k1 = k then (k, v) :: r else (k1, v1) :: updMap r k v

/-- `getattr(obj, name)` over a field map.  The model treats the attribute
as present with default `None` when missing; dataclasses whose fields lack
class-level defaults would raise `AttributeError` at core.py line 74, which
is outside the scope of the conversion claims. -/
def dlookup (l : List (String × Val)) (k : String) : Val :=
  (alookup l k).getD .vnone

/-- The `(name, ctype)` skeleton of a live structure's `_fields_`. -/
def skelOf (fs : List (String × Ty × Val)) : List (String × Ty) :=
  fs.map (fun x => (x.1, x.2.1))

/-- `getattr(datacls, name)` for the class of a nested dataclass value
(`dataclass_value.__class__` at core.py line 90): the class-level per-field
defaults, modelled by the nested instance's own field map. -/
def classFields : Val → List (String × Val)
  | .vdata _ _ fs => fs
  | _ => []

/-- `dataclass_value.__class__.__name__` for a nested dataclass value. -/
def className : Val → String
  | .vdata c _ _ => c
  | _ => ""

/-- Whether a ctype is a Structure/Union subclass
(`issubclass(t, ctypes.Structure) or issubclass(t, ctypes.Union)`). -/
def isComposite : Ty → Bool
  | .cstruct _ _ => true
  | _ => false

mutual

/-- The as-read value of a freshly allocated (zero-initialized) field of the
given ctype: ints read 0, `c_char * n` reads `b""`, arrays read arrays of
zero elements, nested structures read zeroed structure instances. -/
def zeroVal : Ty → Val
  | .cnum => .vint 0
  | .cchararr _ => .vbytes []
  | .carr t n => .varr (isComposite t) (List.replicate n (zeroVal t))
  | .cstruct sname fs => .vstruct sname (zeroFields fs)
termination_by t => 2 * sizeOf t

/-- Zero-initialized field list of a structure type. -/
def zeroFields : List (String × Ty) → List (String × Ty × Val)
  | [] => []
  | (nm, t) :: r => (nm, t, zeroVal t) :: zeroFields r
termination_by fs => 2 * sizeOf fs + 1

end

/-- The Python exception kinds the conversion code can raise. -/
inductive PyErr where
  | typeError
  | indexError
  | valueError

/-- ctypes Structure/Union field assignment `setattr(structure, name, v)`,
returning the as-read stored value: numeric fields accept ints (masked to
32 bits, ctypes does no overflow checking) and bools; `c_char * n` fields
accept `bytes` of length at most `n` (longer raises ValueError) and read
back up to the first NUL; array fields accept only an array instance of the
matching shape (in particular a Python list raises TypeError); nested
structure fields accept only a structure instance of the same class.
Everything else, including `None`, raises TypeError. -/
def setattrConv (ty : Ty) (v : Val) : Except PyErr Val :=
  match ty, v with
  | .cnum, .vint n => .ok (.vint (n % (2 ^ 32 : Int)))
  | .cnum, .vbool b => .ok (.vint (if b then 1 else 0))
  | .cchararr n, .vbytes s =>
    if s.length ≤ n then .ok (.vbytes (s.takeWhile (fun b => b ≠ 0)))
    else .error .valueError
  | .carr t n, .varr comp es =>
    if comp = isComposite t ∧ es.length = n then .ok (.varr comp es)
    else .error .typeError
  | .cstruct sname _, .vstruct sname2 fs2 =>
    if sname = sname2 then .ok (.vstruct sname2 fs2) else .error .typeError
  | _, _ => .error .typeError

/-- `(elemtype * n)(*args)`: ctypes `Array.__init__` assigns `self[i] = v`
for each argument in order; an index past the declared length raises
IndexError, each element assignment converts like a field assignment. -/
def buildArrAux (t : Ty) (n : Nat) : Nat → List Val → Except PyErr (List Val)
  | _, [] => .ok []
  | i, a :: as =>
    if i < n then
      match setattrConv t a with
      | .error e => .error e
      | .ok c =>
        match buildArrAux t n (i + 1) as with
        | .error e => .error e
        | .ok rest => .ok (c :: rest)
    else .error .indexError

/-- Construct a ctypes array instance from positional arguments; unsupplied
trailing elements stay zero-initialized. -/
def buildArr (t : Ty) (n : Nat) (args : List Val) : Except PyErr Val :=
  match buildArrAux t n 0 args with
  | .error e => .error e
  | .ok cs => .ok (.varr (isComposite t) (cs ++ List.replicate (n - cs.length) (zeroVal t)))

/-- `(ctype)(*args)` where `ctype` is the declared field type (core.py lines
111 and 113); the field type is an array type whenever this line runs. -/
def buildArrOfTy (ty : Ty) (args : List Val) : Except PyErr Val :=
  match ty with
  | .carr t n => buildArr t n args
  | _ => .error .typeError

theorem sizeOf_dlookup_le (l : List (String × Val)) (k : String) :
    sizeOf (dlookup l k) ≤ sizeOf l := by
  induction l with
  | nil => simp [dlookup, alookup]
  | cons h t ih =>
    obtain ⟨k1, v1⟩ := h
    simp only [dlookup, alookup]
    split
    · simp only [Option.getD_some]
      simp
      omega
    · simp only [dlookup] at ih
      simp
      omega

mutual

/-- `_ctypes2dataclass(datacls, structure, padding, hook)` (core.py lines
67-94): builds the field dict by the per-field loop and constructs
`datacls(**d)`.  The dataclass side of `datacls` is given by its per-field
class attributes `defaults`; the structure side by its `_fields_` entries
paired with their as-read values `flds`. -/
def ctypes2dataclass (dcname : String) (defaults : List (String × Val))
    (flds : List (String × Ty × Val)) (padding : Bool) (hook : Option Hook) : Val :=
  .vdata dcname (skelOf flds) (c2dLoop defaults padding hook flds)
termination_by 4 * sizeOf flds + 3

/-- The decode loop over `structure._fields_` (core.py lines 72-92),
producing the entries of the dict `d`. -/
def c2dLoop (defaults : List (String × Val)) (padding : Bool) (hook : Option Hook) :
    List (String × Ty × Val) → List (String × Val)
  | [] => []
  | (cname, ty, cvalue) :: rest =>
    (cname, c2dField defaults padding hook cname ty cvalue) :: c2dLoop defaults padding hook rest
termination_by flds => 4 * sizeOf flds + 2

/-- One decode loop body (core.py lines 73-92): `d[cname]` as it stands
when the iteration finishes.  When the hook fires (lines 76-78) its second
call's value is kept and the iteration continues; otherwise the branch
chain of lines 79-91 stores a value that line 92 (`d[cname] = cvalue`)
unconditionally overwrites, so the kept value is `cvalue`. -/
def c2dField (defaults : List (String × Val)) (padding : Bool) (hook : Option Hook)
    (cname : String) (ty : Ty) (cvalue : Val) : Val :=
  let dvalue := dlookup defaults cname
  match hook with
  | some h =>
    if isNone (h cname ty cvalue dvalue) = false then
      -- lines 76-78: d[cname] = hook(cname, ctype, cvalue, dataclass_value); continue
      h cname ty cvalue dvalue
    else
      -- lines 79-91 store a branch value ...
      let _branch := c2dChain padding hook cvalue dvalue
      -- ... which line 92 unconditionally overwrites with the raw cvalue
      cvalue
  | none =>
    let _branch := c2dChain padding hook cvalue dvalue
    cvalue
termination_by 4 * sizeOf cvalue + 2

/-- The if/elif chain of core.py lines 79-91: the value it stores into
`d[cname]` (`none` when no branch matches).  Line 92 overwrites this store
in every case, so its result is dead; it is kept here because the claims
speak about the branch outcomes. -/
def c2dChain (padding : Bool) (hook : Option Hook)
    (cvalue dvalue : Val) : Option Val :=
  if !isNumBool cvalue && !truthy cvalue then
    -- line 81: probably null pointer; d[cname] = None
    some .vnone
  else
    match cvalue with
    | .varr comp es =>
      -- lines 82-87: probably an array
      some (if comp then .vlist (c2dElems padding hook es) else .vlist es)
    | .vstruct _ inner =>
      -- lines 88-90: probably another struct, decoded against
      -- dataclass_value.__class__
      some (ctypes2dataclass (className dvalue) (classFields dvalue) inner padding hook)
    | _ => none
termination_by 4 * sizeOf cvalue + 1

/-- Line 85's comprehension: each element of an array of composites is
decoded via `_ctypes2dataclass(_create_dataclass(cvalue._type_), e, ...)`. -/
def c2dElems (padding : Bool) (hook : Option Hook) : List Val → List Val
  | [] => []
  | e :: rest => c2dElem padding hook e :: c2dElems padding hook rest
termination_by es => 4 * sizeOf es

/-- Decode of one array element.  Elements of a composite-element ctypes
array are structure instances; the generated element dataclass has no class
attributes, so the recursive call sees empty defaults.  (A non-structure
element cannot occur in such an array; `getattr(e, "_fields_", [])` would
be empty and the call would build an empty dict.) -/
def c2dElem (padding : Bool) (hook : Option Hook) (e : Val) : Val :=
  match e with
  | .vstruct _ fs => ctypes2dataclass "" [] fs padding hook
  | _ => .vdata "" [] []
termination_by 4 * sizeOf e + 1

end

theorem length_lt_sizeOf {A : Type} [SizeOf A] (l : List A) : l.length < sizeOf l := by
  induction l with
  | nil => simp
  | cons a t ih =>
    simp only [List.length_cons, List.cons.sizeOf_spec]
    omega

/-- Build `(ctype)(*args)` and assign it to the field (the tail of lines
111 and 113). -/
def d2cStore (ty : Ty) (args : List Val) : Except PyErr (Option Val) :=
  match buildArrOfTy ty args with
  | .error e => .error e
  | .ok arr =>
    match setattrConv ty arr with
    | .error e => .error e
    | .ok stored => .ok (some stored)

/-- Iteration `[e for e in value]` over a Python value, yielding its
elements (lists and ctypes arrays iterate their elements; bytes iterate as
ints); `none` models `TypeError: not iterable`. -/
def iterVals : Val → Option (List Val)
  | .vlist es => some es
  | .varr _ es => some es
  | .vbytes s => some (s.map (fun b => .vint (b : Int)))
  | _ => none

mutual

/-- `_dataclass2ctypes(datacls_instance, padding, hook)` (core.py lines
97-119): allocates `structure = datacls_instance.__class__.ctype()()`, a
zero-initialized instance of the generated ctypes class, runs the per-field
loop, and returns the structure.  A non-dataclass argument has no `ctype`
attribute and raises (AttributeError, modelled as an error). -/
def dataclass2ctypes (inst : Val) (padding : Bool) (hook : Option Hook) : Except PyErr Val :=
  match inst with
  | .vdata cls layout fvals =>
    match d2cLoop padding hook fvals layout with
    | .error e => .error e
    | .ok flds => .ok (.vstruct ("_ctypes_generated_from_" ++ cls) flds)
  | _ => .error .typeError
termination_by 4 * sizeOf inst
decreasing_by
  simp_wf
  rename_i cls layout
  have := length_lt_sizeOf layout
  omega

/-- The encode loop over `structure._fields_` (core.py lines 102-118); the
first field whose processing raises aborts the conversion. -/
def d2cLoop (padding : Bool) (hook : Option Hook) (fvals : List (String × Val)) :
    List (String × Ty) → Except PyErr (List (String × Ty × Val))
  | [] => .ok []
  | (cname, ty) :: rest =>
    -- line 103: cvalue = getattr(structure, cname), still zero-initialized
    -- when its own iteration starts; line 104: the instance attribute
    match d2cField padding hook cname ty (zeroVal ty) (dlookup fvals cname) with
    | .error e => .error e
    | .ok v =>
      match d2cLoop padding hook fvals rest with
      | .error e => .error e
      | .ok tail => .ok ((cname, ty, v) :: tail)
termination_by layout => 4 * sizeOf fvals + 4 * layout.length + 3
decreasing_by
  all_goals simp_wf
  all_goals first
    | omega
    | (have hdl := sizeOf_dlookup_le fvals nm; omega)

/-- One encode loop body (core.py lines 103-118): the field value stored in
the structure when the iteration finishes.  When the hook fires (lines
106-108) its second call's value is assigned and the iteration continues;
otherwise the branch chain of lines 109-116 performs a store that line 118
(`setattr(structure, cname, dataclass_value)`) unconditionally overwrites
(raising TypeError for list- or dataclass-valued fields). -/
def d2cField (padding : Bool) (hook : Option Hook) (cname : String) (ty : Ty)
    (cvalue dvalue : Val) : Except PyErr Val :=
  match hook with
  | some h =>
    if isNone (h cname ty cvalue dvalue) = false then
      -- lines 106-108: setattr(structure, cname, hook(...)); continue
      setattrConv ty (h cname ty cvalue dvalue)
    else
      match d2cChain padding hook ty cvalue dvalue with
      | .error e => .error e
      | .ok _ =>
        -- line 118 unconditionally overwrites the branch store
        setattrConv ty dvalue
  | none =>
    match d2cChain padding hook ty cvalue dvalue with
    | .error e => .error e
    | .ok _ =>
      setattrConv ty dvalue
termination_by 4 * sizeOf dvalue + 2

/-- The if/elif chain of core.py lines 109-116: the value it stores into
the structure field (`none` when no branch matches).  Line 118 overwrites
the store in every case, so a successful store is dead, but any exception
it raises propagates. -/
def d2cChain (padding : Bool) (hook : Option Hook) (ty : Ty) (cvalue dvalue : Val) :
    Except PyErr (Option Val) :=
  match cvalue with
  | .varr comp _ =>
    if comp then
      -- line 111: the elements of dataclass_value are encoded recursively,
      -- then (ctype)(*encoded) is built and assigned
      match dvalue with
      | .vlist es =>
        match d2cList padding hook es with
        | .error e => .error e
        | .ok encoded => d2cStore ty encoded
      | .varr _ es =>
        match d2cList padding hook es with
        | .error e => .error e
        | .ok encoded => d2cStore ty encoded
      | .vbytes s =>
        -- iterating bytes yields ints; encoding an int raises looking up
        -- its (absent) ctype() classmethod
        if s.isEmpty then d2cStore ty [] else .error .typeError
      | _ => .error .typeError
    else
      -- line 113: (ctype)(*[e for e in dataclass_value])
      match iterVals dvalue with
      | none => .error .typeError
      | some args => d2cStore ty args
  | .vstruct _ _ =>
    -- lines 114-116: probably another struct
    match dataclass2ctypes dvalue padding hook with
    | .error e => .error e
    | .ok enc =>
      match setattrConv ty enc with
      | .error e => .error e
      | .ok stored => .ok (some stored)
  | _ => .ok none
termination_by 4 * sizeOf dvalue + 1

/-- The comprehension of line 111: encode each element of the value-side
sequence. -/
def d2cList (padding : Bool) (hook : Option Hook) : List Val → Except PyErr (List Val)
  | [] => .ok []
  | e :: rest =>
    match dataclass2ctypes e padding hook with
    | .error e2 => .error e2
    | .ok c =>
      match d2cList padding hook rest with
      | .error e2 => .error e2
      | .ok cs => .ok (c :: cs)
termination_by es => 4 * sizeOf es

end

/-- `CDataMixIn.from_ctype(cls, structure, padding=True, hook=None)`
(core.py lines 156-166): when no hook argument is passed, the class-level
`_decode_hook` is used.  The dataclass side of `cls` is given by its name
and its per-field class-attribute defaults. -/
def from_ctype (decode_hook : Option Hook) (dcname : String)
    (defaults : List (String × Val)) (flds : List (String × Ty × Val))
    (padding : Bool) (hookArg : Option Hook) : Val :=
  match hookArg with
  | some h => ctypes2dataclass dcname defaults flds padding (some h)
  | none => ctypes2dataclass dcname defaults flds padding decode_hook

/-- `CDataMixIn.to_ctype(self, padding=True, hook=None)` (core.py lines
168-172).  Line 171 of the source reads `self.__class__._decode_hook` as
the fallback — not `_encode_hook`; the class's `_encode_hook` is carried
here as a parameter so that claims can speak about it, but the source never
consults it. -/
def to_ctype (decode_hook : Option Hook) (_encode_hook : Option Hook) (inst : Val)
    (padding : Bool) (hookArg : Option Hook) : Except PyErr Val :=
  match hookArg with
  | some h => dataclass2ctypes inst padding (some h)
  | none => dataclass2ctypes inst padding decode_hook

/-- Keyword binding `cls(**src)` of a dataclass constructor: each declared
field either takes the supplied value or falls back to its default;
a field with no default and no supplied value raises TypeError (missing
required argument). -/
def bindFields : List (String × Option Val) → List (String × Val) →
    Except PyErr (List (String × Val))
  | [], _ => .ok []
  | (nm, dflt) :: r, src =>
    match (alookup src nm).orElse (fun _ => dflt) with
    | none => .error .typeError
    | some v =>
      match bindFields r src with
      | .error e => .error e
      | .ok rest => .ok ((nm, v) :: rest)

/-- `CDataMixIn.from_dict(cls, src)` (core.py lines 174-177): `cls(**src)`.
A key of `src` that names no declared field raises TypeError (unexpected
keyword argument); a required field with no supplied value raises TypeError
(missing argument).  Either way the constructor body never runs, so no
(partial) instance is produced. -/
def from_dict (flds : List (String × Option Val)) (src : List (String × Val)) :
    Except PyErr (List (String × Val)) :=
  if src.all (fun kv => (alookup flds kv.1).isSome) then bindFields flds src
  else .error .typeError

/-- A dataclass (value type) object: name, declared `(field name, ctype
metadata)` list, and Python object identity. -/
structure Dc where
  dname : String
  dfields : List (String × Ty)
  uid : Nat

/-- A ctypes Structure/Union class object: class name, `_fields_`, `_pack_`
and Python object identity. -/
structure Ct where
  sname : String
  cfields : List (String × Ty)
  pack : Nat
  cuid : Nat

/-- The module-level mutable state of core.py: the `functools.cache` table
of `_create_ctypes_class` (keyed by the identities of its `(datacls, base,
pack)` arguments), the `functools.cache` table of `_create_dataclass`
(keyed by the structure class identity), the dict
`_STRUCTURE_DATACLASS_MAP` (keyed by generated class NAME, line 40), and a
counter supplying fresh object identities. -/
structure GenState where
  ctCache : List ((Nat × Nat × Nat) × Ct)
  dcCache : List (Nat × Dc)
  structMap : List (String × Dc)
  fresh : Nat

/-- `_create_ctypes_class(datacls, base, pack)` (core.py lines 29-42) with
its `functools.cache`: on a cache miss, a new ctypes class named
`_ctypes_generated_from_<datacls name>` is built from the field metadata,
and `_STRUCTURE_DATACLASS_MAP[structure_name] = datacls` is recorded —
overwriting any previous entry under the same name. -/
def create_ctypes_class (s : GenState) (d : Dc) (base : Nat) (pack : Nat) :
    GenState × Ct :=
  match alookup s.ctCache (d.uid, base, pack) with
  | some c => (s, c)
  | none =>
    let sname := "_ctypes_generated_from_" ++ d.dname
    let c : Ct := ⟨sname, d.dfields, pack, s.fresh⟩
    ({ ctCache := updMap s.ctCache (d.uid, base, pack) c
       dcCache := s.dcCache
       structMap := updMap s.structMap sname d
       fresh := s.fresh + 1 }, c)

/-- `_create_dataclass(structure)` (core.py lines 45-64) with its
`functools.cache`: on a cache miss, look the structure class name up in
`_STRUCTURE_DATACLASS_MAP` and return the registered dataclass if any;
otherwise synthesize a fresh dataclass mirroring `_fields_`. -/
def create_dataclass (s : GenState) (c : Ct) : GenState × Dc :=
  match alookup s.dcCache c.cuid with
  | some d => (s, d)
  | none =>
    match alookup s.structMap c.sname with
    | some d => ({ s with dcCache := updMap s.dcCache c.cuid d }, d)
    | none =>
      let d : Dc := ⟨"_dataclass_generated_from_" ++ c.sname, c.cfields, s.fresh⟩
      ({ s with dcCache := updMap s.dcCache c.cuid d, fresh := s.fresh + 1 }, d)

/-- The hook invocations one decode loop body performs at its own field
(core.py lines 76-78), paired with the value kept for that field.  The
hook is called once as the is-not-None test (line 76) and, when that test
passes, a second time for the stored value (line 77).  Nested conversions
inside the dead branch store of lines 79-91 perform their own per-field
invocations, accounted at those fields. -/
def c2dFieldTrace (h : Hook) (defaults : List (String × Val)) (padding : Bool)
    (cname : String) (ty : Ty) (cvalue : Val) :
    Val × List (String × Ty × Val × Val) :=
  let dvalue := dlookup defaults cname
  let t1 := h cname ty cvalue dvalue
  if isNone t1 = false then
    let t2 := h cname ty cvalue dvalue
    (t2, [(cname, ty, cvalue, dvalue), (cname, ty, cvalue, dvalue)])
  else
    let _branch := c2dChain padding (some h) cvalue dvalue
    (cvalue, [(cname, ty, cvalue, dvalue)])

/-- The hook invocations one encode loop body performs at its own field
(core.py lines 106-108), paired with the field's final stored value. -/
def d2cFieldTrace (h : Hook) (padding : Bool) (cname : String) (ty : Ty)
    (cvalue dvalue : Val) :
    Except PyErr Val × List (String × Ty × Val × Val) :=
  let t1 := h cname ty cvalue dvalue
  if isNone t1 = false then
    let t2 := h cname ty cvalue dvalue
    (setattrConv ty t2, [(cname, ty, cvalue, dvalue), (cname, ty, cvalue, dvalue)])
  else
    (match d2cChain padding (some h) ty cvalue dvalue with
     | .error e => .error e
     | .ok _ => setattrConv ty dvalue,
     [(cname, ty, cvalue, dvalue)])

/-- The length of an ordered-sequence value (Python list, ctypes array, or
bytes), `none` for non-sequences. -/
def seqLen : Val → Option Nat
  | .vlist es => some es.length
  | .varr _ es => some es.length
  | .vbytes s => some s.length
  | _ => none

/-- The dataclass side of claim C1's example: a class whose single field
`s` is declared `c_char * 4` with class-level default `None`. -/
def c1_defaults : List (String × Val) := [("s", Val.vnone)]

/-- The structure side of claim C1's example: the field `s` reads `b""`
(all four bytes NUL). -/
def c1_flds : List (String × Ty × Val) := [("s", Ty.cchararr 4, Val.vbytes [])]

/-- C1: the claim states that per field exactly one branch's result is kept
and the first applicable branch's outcome is never overwritten by the final
default scalar assignment.  The code contradicts it: decoding a zeroed
`c_char * 4` field selects the null-sentinel branch (lines 79-81, storing
`None`), but line 92 unconditionally overwrites the store with the raw
`cvalue`, so the decoded field is `b""`, not the first applicable branch's
`None`. -/
theorem c1_first_branch_overwritten :
    c2dChain true none (Val.vbytes []) Val.vnone = some Val.vnone ∧
    ctypes2dataclass "S" c1_defaults c1_flds true none
      = Val.vdata "S" [("s", Ty.cchararr 4)] [("s", Val.vbytes [])] ∧
    Val.vbytes [] ≠ Val.vnone := by
  refine ⟨?_, ?_, ?_⟩
  · rw [c2dChain.eq_def]
    simp [isNumBool, truthy]
  · rw [ctypes2dataclass.eq_def]
    rw [c2dLoop.eq_def]
    simp only [c1_flds, c1_defaults]
    rw [c2dField.eq_def]
    rw [c2dLoop.eq_def]
    simp [skelOf]
  · intro hcontra
    exact Val.noConfusion hcontra

/-- Claim C2's example instance: a dataclass with a single `c_uint32 * 2`
array field holding the list `[1, 2]` — no field is `None` and no hook is
supplied. -/
def c2_v : Val :=
  Val.vdata "D" [("xs", Ty.carr Ty.cnum 2)] [("xs", Val.vlist [Val.vint 1, Val.vint 2])]

/-- C2: the claim states `from_ctype(to_ctype(v)) == v` for hook-free
instances without absent fields.  The code contradicts it: encoding `c2_v`
raises TypeError, because after the array branch stores the constructed
ctypes array (line 111/113), line 118 unconditionally assigns the raw
Python list to the array field, which ctypes rejects; so the round trip
never gets past `to_ctype`. -/
theorem c2_roundtrip_encode_raises :
    dataclass2ctypes c2_v true none = .error PyErr.typeError := by
  simp [c2_v, dataclass2ctypes.eq_def, d2cLoop.eq_def, d2cField.eq_def, d2cChain.eq_def,
        zeroVal, isComposite, dlookup, alookup, iterVals, d2cStore, buildArrOfTy,
        buildArr, buildArrAux, setattrConv, List.replicate]

/-- Claim C3's example instances: a dataclass with a `c_uint32` field
holding `None`, and a structure whose `c_char * 8` field reads `b""`. -/
def c3_v : Val := Val.vdata "D" [("n", Ty.cnum)] [("n", Val.vnone)]

/-- C3: the claim states the sentinel law: a zero/empty non-numeric binary
field decodes to `None`, and encoding `None` writes the binary type's
zero/empty representation.  The code contradicts both directions: encoding
`None` into a `c_uint32` field executes no branch for `None` and line 118
assigns `None` to the ctypes field, raising TypeError instead of writing
zero; and decoding a zeroed `c_char * 8` field yields the raw `b""` (line
92 overwrites the sentinel branch's `None` store), not `None`. -/
theorem c3_sentinel_law_fails :
    dataclass2ctypes c3_v true none = .error PyErr.typeError ∧
    setattrConv Ty.cnum Val.vnone = .error PyErr.typeError ∧
    c2dField [("p", Val.vnone)] true none "p" (Ty.cchararr 8) (Val.vbytes [])
      = Val.vbytes [] ∧
    Val.vbytes [] ≠ Val.vnone := by
  refine ⟨?_, rfl, ?_, ?_⟩
  · simp [c3_v, dataclass2ctypes.eq_def, d2cLoop.eq_def, d2cField.eq_def, d2cChain.eq_def,
          zeroVal, dlookup, alookup, setattrConv]
  · rw [c2dField.eq_def]
  · intro hcontra
    exact Val.noConfusion hcontra

/-- C4: hook precedence.  In either direction, when the supplied hook
returns a non-None value `v` for a field's `(name, ctype, cvalue,
dataclass_value)` arguments, the loop body stores that value and continues
(lines 76-78 / 106-108), so `v` — not any default-branch value — is the
field's value in the conversion result (for encode, provided `v` is
storable as-is in the binary field). -/
theorem c4_hook_precedence (p : Bool) (h : Hook) (cname : String) (ty : Ty)
    (cvalue dvalue v : Val) (defaults : List (String × Val))
    (hd : dlookup defaults cname = dvalue)
    (hv : h cname ty cvalue dvalue = v) (hne : isNone v = false)
    (hstore : setattrConv ty v = .ok v) :
    c2dField defaults p (some h) cname ty cvalue = v ∧
    d2cField p (some h) cname ty cvalue dvalue = .ok v := by
  constructor
  · rw [c2dField.eq_def]
    simp [hd, hv, hne]
  · rw [d2cField.eq_def]
    simp [hv, hne, hstore]

/-- Witness for C4 at a concrete input: a hook returning `7` for every
field overrides the default scalar branch of a `c_uint32` field. -/
theorem c4_hook_precedence_witness :
    c2dField [] true (some (fun _ _ _ _ => Val.vint 7)) "n" Ty.cnum (Val.vint 1)
      = Val.vint 7 ∧
    d2cField true (some (fun _ _ _ _ => Val.vint 7)) "n" Ty.cnum (Val.vint 1) Val.vnone
      = .ok (Val.vint 7) :=
  c4_hook_precedence true (fun _ _ _ _ => Val.vint 7) "n" Ty.cnum (Val.vint 1)
    Val.vnone (Val.vint 7) [] rfl rfl rfl (by simp [setattrConv])

theorem alookup_updMap_self {K B : Type} [DecidableEq K] (l : List (K × B)) (k : K) (v : B) :
    alookup (updMap l k v) k = some v := by
  induction l with
  | nil => simp [updMap, alookup]
  | cons hd t ih =>
    obtain ⟨k1, v1⟩ := hd
    rw [updMap]
    split
    · simp [alookup]
    · rw [alookup]
      simp only [ih]
      split
      · simp_all
      · rfl

/-- Two distinct value types that share the class name `"X"` (Python allows
same-named classes; identities 0 and 1 differ). -/
def c5_d1 : Dc := ⟨"X", [("a", Ty.cnum)], 0⟩

/-- See `c5_d1`. -/
def c5_d2 : Dc := ⟨"X", [], 1⟩

/-- The initial empty generator state. -/
def c5_s0 : GenState := ⟨[], [], [], 10⟩

/-- State after generating the descriptor for `c5_d1`. -/
def c5_s1 : GenState := (create_ctypes_class c5_s0 c5_d1 0 1).1

/-- The descriptor generated for `c5_d1`. -/
def c5_c1 : Ct := (create_ctypes_class c5_s0 c5_d1 0 1).2

/-- State after additionally generating the descriptor for `c5_d2`, whose
registration overwrites `_STRUCTURE_DATACLASS_MAP["_ctypes_generated_from_X"]`. -/
def c5_s2 : GenState := (create_ctypes_class c5_s1 c5_d2 0 1).1

/-- Counterexample to C5 as stated: `c5_c1` was produced by
`_create_ctypes_class` for `c5_d1`, yet `_create_dataclass` applied to it
returns `c5_d2` — the other, later-registered value type of the same name —
because `_STRUCTURE_DATACLASS_MAP` is keyed by generated class name alone
(core.py lines 34 and 40). -/
theorem c5_reverse_lookup_counterexample :
    (create_dataclass c5_s2 c5_c1).2 = c5_d2 ∧ c5_d2 ≠ c5_d1 := by
  constructor
  · rfl
  · intro hcontra
    simp [c5_d1, c5_d2] at hcontra

/-- C5 amended: repeated calls of `_create_ctypes_class` on the same value
type (same identity, base and pack) return the identical descriptor; and
`_create_dataclass` on a generated descriptor returns the original value
type provided `_STRUCTURE_DATACLASS_MAP` still maps the descriptor's class
name to that value type (no same-named value type registered since) and no
reverse lookup for this descriptor has been cached. -/
theorem c5_generator_amended :
    (∀ (s : GenState) (d : Dc) (base pack : Nat),
      create_ctypes_class (create_ctypes_class s d base pack).1 d base pack
        = create_ctypes_class s d base pack) ∧
    (∀ (s : GenState) (c : Ct) (d : Dc),
      alookup s.structMap c.sname = some d →
      alookup s.dcCache c.cuid = none →
      (create_dataclass s c).2 = d) := by
  constructor
  · intro s d base pack
    cases hc : alookup s.ctCache (d.uid, base, pack) with
    | some c => simp [create_ctypes_class, hc]
    | none => simp [create_ctypes_class, hc, alookup_updMap_self]
  · intro s c d hmap hdc
    rw [create_dataclass]
    simp [hdc, hmap]

/-- Witness for C5's amended theorem: immediately after generating `c5_c1`
from `c5_d1`, the reverse lookup returns `c5_d1` itself. -/
theorem c5_generator_amended_witness :
    (create_dataclass c5_s1 c5_c1).2 = c5_d1 :=
  c5_generator_amended.2 c5_s1 c5_c1 c5_d1 rfl rfl

/-- C6: array preservation.  Decoding a fixed-length array field (hook-free)
yields the field's sequence value with exactly the declared length: the raw
ctypes array carries `n` elements and is what line 92 keeps.  Encoding a
sequence of the wrong length into an array field raises (IndexError from
`(ctype)(*args)` for too many initializers, or the TypeError of the final
line-118 list assignment) rather than silently truncating or zero-filling. -/
theorem c6_array_preservation :
    (∀ (defaults : List (String × Val)) (p : Bool) (cname : String) (t : Ty)
      (n : Nat) (comp : Bool) (es : List Val), es.length = n →
      seqLen (c2dField defaults p none cname (Ty.carr t n) (Val.varr comp es)) = some n) ∧
    (∀ (p : Bool) (cname : String) (t : Ty) (n : Nat) (es : List Val),
      es.length ≠ n →
      ∃ e, d2cField p none cname (Ty.carr t n) (zeroVal (Ty.carr t n)) (Val.vlist es)
        = .error e) := by
  constructor
  · intro defaults p cname t n comp es hlen
    rw [c2dField.eq_def]
    simp [seqLen, hlen]
  · intro p cname t n es _hlen
    rw [d2cField.eq_def]
    simp only []
    cases hres : d2cChain p none (Ty.carr t n) (zeroVal (Ty.carr t n)) (Val.vlist es) with
    | error e => exact ⟨e, rfl⟩
    | ok o => exact ⟨PyErr.typeError, rfl⟩

/-- Witness for C6 at concrete inputs: a `c_uint32 * 2` field decodes to a
length-2 sequence, and encoding a 1-element list into it raises. -/
theorem c6_array_preservation_witness :
    seqLen (c2dField [] true none "a" (Ty.carr Ty.cnum 2)
        (Val.varr false [Val.vint 1, Val.vint 2])) = some 2 ∧
    ∃ e, d2cField true none "a" (Ty.carr Ty.cnum 2) (zeroVal (Ty.carr Ty.cnum 2))
        (Val.vlist [Val.vint 1]) = .error e :=
  ⟨c6_array_preservation.1 [] true "a" Ty.cnum 2 false [Val.vint 1, Val.vint 2] rfl,
   c6_array_preservation.2 true "a" Ty.cnum 2 [Val.vint 1] (by simp)⟩

theorem bindFields_missing (flds : List (String × Option Val)) (src : List (String × Val))
    (f : String × Option Val) (hf : f ∈ flds) (hreq : f.2 = none)
    (hmiss : alookup src f.1 = none) :
    bindFields flds src = .error PyErr.typeError := by
  induction flds with
  | nil => cases hf
  | cons hd r ih =>
    obtain ⟨nm, dflt⟩ := hd
    rw [bindFields.eq_def]
    simp only []
    rcases List.mem_cons.mp hf with heq | htail
    · subst heq
      simp only at hreq hmiss
      simp [hmiss, hreq, Option.orElse]
    · cases horelse : (alookup src nm).orElse (fun _ => dflt) with
      | none => rfl
      | some v => rw [ih htail]

/-- C7: a mapping that misses a required (default-less) field or carries an
unrecognized key makes `from_dict`, i.e. `cls(**src)`, raise TypeError —
the Python-level realization of the spec's `SchemaMismatch` — during call
binding, before the constructor body runs, so no (partially constructed)
instance is produced. -/
theorem c7_from_dict_schema_mismatch (flds : List (String × Option Val))
    (src : List (String × Val))
    (hbad : (∃ f, f ∈ flds ∧ f.2 = none ∧ alookup src f.1 = none) ∨
      (∃ kv, kv ∈ src ∧ alookup flds kv.1 = none)) :
    from_dict flds src = .error PyErr.typeError := by
  rw [from_dict]
  split
  · rename_i hall
    rcases hbad with ⟨f, hf, hreq, hmiss⟩ | ⟨kv, hkv, hunk⟩
    · exact bindFields_missing flds src f hf hreq hmiss
    · have := List.all_eq_true.mp hall kv hkv
      rw [hunk] at this
      simp at this
  · rfl

/-- Witness for C7 at concrete inputs: a missing required field `number`,
and an unrecognized field `bogus`. -/
theorem c7_from_dict_schema_mismatch_witness :
    from_dict [("number", none)] [] = .error PyErr.typeError ∧
    from_dict [("number", some (Val.vint 0))] [("bogus", Val.vint 1)]
      = .error PyErr.typeError :=
  ⟨c7_from_dict_schema_mismatch [("number", none)] []
      (Or.inl ⟨("number", none), by simp, rfl, rfl⟩),
   c7_from_dict_schema_mismatch [("number", some (Val.vint 0))] [("bogus", Val.vint 1)]
      (Or.inr ⟨("bogus", Val.vint 1), by simp, by simp [alookup]⟩)⟩

/-- A decode hook returning 5 for every field. -/
def c8_h1 : Hook := fun _ _ _ _ => Val.vint 5

/-- An encode hook returning 9 for every field. -/
def c8_h2 : Hook := fun _ _ _ _ => Val.vint 9

/-- A dataclass instance with one `c_uint32` field for claim C8. -/
def c8_inst : Val := Val.vdata "D" [("n", Ty.cnum)] [("n", Val.vint 1)]

/-- C8: the claim states that without a per-call hook, `from_ctype` falls
back to the class `_decode_hook` and `to_ctype` to the class
`_encode_hook`.  The first half holds, but core.py line 171 reads
`self.__class__._decode_hook` in `to_ctype`: with `_decode_hook = c8_h1`
and `_encode_hook = c8_h2` bound on the class, `to_ctype()` encodes with
`c8_h1` (field value 5), not with `c8_h2` (which the engine would have
turned into 9); `_encode_hook` is never consulted. -/
theorem c8_to_ctype_uses_decode_hook :
    to_ctype (some c8_h1) (some c8_h2) c8_inst true none
      = .ok (Val.vstruct "_ctypes_generated_from_D" [("n", Ty.cnum, Val.vint 5)]) ∧
    dataclass2ctypes c8_inst true (some c8_h2)
      = .ok (Val.vstruct "_ctypes_generated_from_D" [("n", Ty.cnum, Val.vint 9)]) ∧
    from_ctype (some c8_h1) "D" [("n", Val.vint 0)] [("n", Ty.cnum, Val.vint 3)] true none
      = Val.vdata "D" [("n", Ty.cnum)] [("n", Val.vint 5)] := by
  refine ⟨?_, ?_, ?_⟩
  · simp [to_ctype, c8_inst, c8_h1, dataclass2ctypes.eq_def, d2cLoop.eq_def,
          d2cField.eq_def, zeroVal, dlookup, alookup, isNone, setattrConv]
  · simp [c8_inst, c8_h2, dataclass2ctypes.eq_def, d2cLoop.eq_def,
          d2cField.eq_def, zeroVal, dlookup, alookup, isNone, setattrConv]
  · simp [from_ctype, c8_h1, ctypes2dataclass.eq_def, c2dLoop.eq_def,
          c2dField.eq_def, dlookup, alookup, isNone, skelOf]

theorem c2dField_padIrrel (defaults : List (String × Val)) (p q : Bool)
    (hook : Option Hook) (cname : String) (ty : Ty) (cvalue : Val) :
    c2dField defaults p hook cname ty cvalue = c2dField defaults q hook cname ty cvalue := by
  rw [c2dField.eq_def, c2dField.eq_def]

theorem c2dLoop_padIrrel (defaults : List (String × Val)) (p q : Bool)
    (hook : Option Hook) (flds : List (String × Ty × Val)) :
    c2dLoop defaults p hook flds = c2dLoop defaults q hook flds := by
  induction flds with
  | nil => rw [c2dLoop.eq_def, c2dLoop.eq_def]
  | cons x rest ih =>
    obtain ⟨cname, ty, cvalue⟩ := x
    rw [c2dLoop.eq_def, c2dLoop.eq_def]
    simp only [ih]
    rw [c2dField_padIrrel defaults p q hook cname ty cvalue]

theorem ctypes2dataclass_padIrrel (dcname : String) (defaults : List (String × Val))
    (flds : List (String × Ty × Val)) (p q : Bool) (hook : Option Hook) :
    ctypes2dataclass dcname defaults flds p hook = ctypes2dataclass dcname defaults flds q hook := by
  rw [ctypes2dataclass.eq_def, ctypes2dataclass.eq_def,
    c2dLoop_padIrrel defaults p q hook flds]

mutual

theorem dataclass2ctypes_padIrrel (p q : Bool) (hook : Option Hook) (inst : Val) :
    dataclass2ctypes inst p hook = dataclass2ctypes inst q hook := by
  rw [dataclass2ctypes.eq_def, dataclass2ctypes.eq_def]
  cases inst with
  | vdata cls layout fvals =>
    simp only []
    rw [d2cLoop_padIrrel p q hook fvals layout]
  | vint n => rfl
  | vbool b => rfl
  | vbytes bs => rfl
  | vnone => rfl
  | varr comp elems => rfl
  | vstruct sname fields => rfl
  | vlist elems => rfl
termination_by 4 * sizeOf inst
decreasing_by
  simp_wf
  have := length_lt_sizeOf layout
  omega

theorem d2cLoop_padIrrel (p q : Bool) (hook : Option Hook) (fvals : List (String × Val))
    (layout : List (String × Ty)) :
    d2cLoop p hook fvals layout = d2cLoop q hook fvals layout := by
  match layout with
  | [] => rw [d2cLoop.eq_def, d2cLoop.eq_def]
  | (cname, ty) :: rest =>
    rw [d2cLoop.eq_def, d2cLoop.eq_def]
    simp only []
    rw [d2cField_padIrrel p q hook cname ty (zeroVal ty) (dlookup fvals cname),
      d2cLoop_padIrrel p q hook fvals rest]
termination_by 4 * sizeOf fvals + 4 * layout.length + 3
decreasing_by
  all_goals simp_wf
  all_goals first
    | omega
    | (have hdl := sizeOf_dlookup_le fvals cname; omega)

theorem d2cField_padIrrel (p q : Bool) (hook : Option Hook) (cname : String) (ty : Ty)
    (cvalue dvalue : Val) :
    d2cField p hook cname ty cvalue dvalue = d2cField q hook cname ty cvalue dvalue := by
  rw [d2cField.eq_def, d2cField.eq_def]
  cases hook with
  | some h =>
    simp only []
    rw [d2cChain_padIrrel p q (some h) ty cvalue dvalue]
  | none =>
    simp only []
    rw [d2cChain_padIrrel p q none ty cvalue dvalue]
termination_by 4 * sizeOf dvalue + 2

theorem d2cChain_padIrrel (p q : Bool) (hook : Option Hook) (ty : Ty) (cvalue dvalue : Val) :
    d2cChain p hook ty cvalue dvalue = d2cChain q hook ty cvalue dvalue := by
  rw [d2cChain.eq_def, d2cChain.eq_def]
  cases cvalue with
  | varr comp elems =>
    simp only []
    cases comp with
    | false => rfl
    | true =>
      simp only []
      cases dvalue with
      | vlist es =>
        simp only []
        rw [d2cList_padIrrel p q hook es]
      | varr comp2 es =>
        simp only []
        rw [d2cList_padIrrel p q hook es]
      | vint n => rfl
      | vbool b => rfl
      | vbytes bs => rfl
      | vnone => rfl
      | vstruct sname fields => rfl
      | vdata cls layout fvals => rfl
  | vstruct sname fields =>
    simp only []
    rw [dataclass2ctypes_padIrrel p q hook dvalue]
  | vint n => rfl
  | vbool b => rfl
  | vbytes bs => rfl
  | vnone => rfl
  | vlist elems => rfl
  | vdata cls layout fvals => rfl
termination_by 4 * sizeOf dvalue + 1

theorem d2cList_padIrrel (p q : Bool) (hook : Option Hook) (es : List Val) :
    d2cList p hook es = d2cList q hook es := by
  match es with
  | [] => rw [d2cList.eq_def, d2cList.eq_def]
  | e :: rest =>
    rw [d2cList.eq_def, d2cList.eq_def]
    simp only []
    rw [dataclass2ctypes_padIrrel p q hook e, d2cList_padIrrel p q hook rest]
termination_by 4 * sizeOf es

end

/-- C9: the `padding` parameter threaded through the engines and the facade
entry points is never read (the `_decode_padding`/`_encode_padding`
attributes of `CDataMixIn` are commented out in the source), so every
conversion yields the same result with `padding=True` and
`padding=False`. -/
theorem c9_padding_has_no_effect :
    (∀ (dcname : String) (defaults : List (String × Val))
      (flds : List (String × Ty × Val)) (hook : Option Hook),
      ctypes2dataclass dcname defaults flds true hook
        = ctypes2dataclass dcname defaults flds false hook) ∧
    (∀ (inst : Val) (hook : Option Hook),
      dataclass2ctypes inst true hook = dataclass2ctypes inst false hook) ∧
    (∀ (dh : Option Hook) (dcname : String) (defaults : List (String × Val))
      (flds : List (String × Ty × Val)) (hookArg : Option Hook),
      from_ctype dh dcname defaults flds true hookArg
        = from_ctype dh dcname defaults flds false hookArg) ∧
    (∀ (dh eh : Option Hook) (inst : Val) (hookArg : Option Hook),
      to_ctype dh eh inst true hookArg = to_ctype dh eh inst false hookArg) := by
  refine ⟨?_, ?_, ?_, ?_⟩
  · intro dcname defaults flds hook
    exact ctypes2dataclass_padIrrel dcname defaults flds true false hook
  · intro inst hook
    exact dataclass2ctypes_padIrrel true false hook inst
  · intro dh dcname defaults flds hookArg
    cases hookArg with
    | some h => exact ctypes2dataclass_padIrrel dcname defaults flds true false (some h)
    | none => exact ctypes2dataclass_padIrrel dcname defaults flds true false dh
  · intro dh eh inst hookArg
    cases hookArg with
    | some h => exact dataclass2ctypes_padIrrel true false (some h) inst
    | none => exact dataclass2ctypes_padIrrel true false dh inst

/-- C10: when the supplied hook returns a non-None value for a field, each
engine's loop body invokes the hook exactly twice with identical arguments
— once as the is-not-None test (line 76 / 106) and once to obtain the
stored value (line 77 / 107) — and the field's kept value is the second
invocation's return value (for encode, as stored by the field assignment).
The trace models agree with the engines' loop bodies. -/
theorem c10_hook_invoked_twice (h : Hook) (defaults : List (String × Val)) (p : Bool)
    (cname : String) (ty : Ty) (cvalue dvalue v : Val)
    (hd : dlookup defaults cname = dvalue)
    (hv : h cname ty cvalue dvalue = v) (hne : isNone v = false)
    (hstore : setattrConv ty v = .ok v) :
    c2dFieldTrace h defaults p cname ty cvalue
      = (v, [(cname, ty, cvalue, dvalue), (cname, ty, cvalue, dvalue)]) ∧
    (c2dFieldTrace h defaults p cname ty cvalue).1
      = c2dField defaults p (some h) cname ty cvalue ∧
    d2cFieldTrace h p cname ty cvalue dvalue
      = (.ok v, [(cname, ty, cvalue, dvalue), (cname, ty, cvalue, dvalue)]) ∧
    (d2cFieldTrace h p cname ty cvalue dvalue).1
      = d2cField p (some h) cname ty cvalue dvalue := by
  refine ⟨?_, ?_, ?_, ?_⟩
  · simp [c2dFieldTrace, hd, hv, hne]
  · rw [c2dField.eq_def]
    simp [c2dFieldTrace, hd, hv, hne]
  · simp [d2cFieldTrace, hv, hne, hstore]
  · rw [d2cField.eq_def]
    simp [d2cFieldTrace, hv, hne, hstore]

/-- Witness for C10 at a concrete input: a hook returning `7`. -/
theorem c10_hook_invoked_twice_witness :
    c2dFieldTrace (fun _ _ _ _ => Val.vint 7) [] true "n" Ty.cnum (Val.vint 1)
      = (Val.vint 7, [("n", Ty.cnum, Val.vint 1, Val.vnone),
          ("n", Ty.cnum, Val.vint 1, Val.vnone)]) ∧
    d2cFieldTrace (fun _ _ _ _ => Val.vint 7) true "n" Ty.cnum (Val.vint 1) Val.vnone
      = (.ok (Val.vint 7), [("n", Ty.cnum, Val.vint 1, Val.vnone),
          ("n", Ty.cnum, Val.vint 1, Val.vnone)]) :=
  ⟨(c10_hook_invoked_twice (fun _ _ _ _ => Val.vint 7) [] true "n" Ty.cnum
      (Val.vint 1) Val.vnone (Val.vint 7) rfl rfl rfl (by simp [setattrConv])).1,
   (c10_hook_invoked_twice (fun _ _ _ _ => Val.vint 7) [] true "n" Ty.cnum
      (Val.vint 1) Val.vnone (Val.vint 7) rfl rfl rfl (by simp [setattrConv])).2.2.1⟩

end Cdata
